import Mathlib

/-!
Verification development for `install.py` of the `linux_install` repository.

The file embeds the two core components of the program:

* the command runner `_run` (install.py lines 39-66), together with the
  path helper `_path` (lines 31-36), modelled as a state-passing function
  over an abstract "world" `W` and abstract subprocess options `O`
  (the `**kwargs` forwarded to `subprocess.run`); and
* the monitor layout planner `monitor` (lines 136-166) with its record
  class `_Monitor` (lines 100-133), including the line scanning that
  replicates the two regular expressions of the source.

Python strings are modelled through their character lists; the regular
expressions `^([\w-]+) connected` and `[\s]*(\d+)x(\d+)` are unfolded into
explicit scans that agree with Python's leftmost-match semantics on the
ASCII inputs the program handles (`\w` is modelled as ASCII word
characters).  Machine-level behaviour that the program never relies on
(Unicode classes, the exotic line separators of `str.splitlines`) is noted
where it is restricted.
-/

namespace LinuxInstall

/-! ### Character-level models of the Python string operations used -/

/-- Model of Python `s.startswith(pre)`. -/
def strStartsWith (s pre : String) : Bool :=
  pre.data.isPrefixOf s.data

/-- Model of Python slicing `s[n:]`. -/
def strDrop (s : String) (n : Nat) : String :=
  ⟨s.data.drop n⟩

/-- Model of Python `s.endswith("/")`, used by `os.path.join`. -/
def strEndsWithSlash (s : String) : Bool :=
  s.data.getLast? == some '/'

/-- Model of `os.path.join(a, b)` for two components: an absolute second
component discards the first, otherwise the components are glued with a
single `/` separator. -/
def osPathJoin (a b : String) : String :=
  if strStartsWith b "/" then b
  else if a = "" || strEndsWithSlash a then a ++ b
  else a ++ "/" ++ b

/-- Model of `_path` (install.py lines 31-36): a leading `~/` is replaced
by `os.path.join(home, rest)`; every other string is returned unchanged.
The home directory is passed explicitly instead of being read from the
environment. -/
def pyPath (home p : String) : String :=
  if strStartsWith p "~/" then osPathJoin home (strDrop p 2) else p

/-- Model of Python `sep.join(parts)`. -/
def strJoin (sep : String) : List String → String
  | [] => ""
  | [s] => s
  | s :: t :: rest => s ++ sep ++ strJoin sep (t :: rest)

/-- Worker for `pySplitlines`, accumulating the current line in reverse. -/
def pySplitlinesAux : List Char → List Char → List (List Char)
  | [], acc => if acc.isEmpty then [] else [acc.reverse]
  | '\r' :: '\n' :: rest, acc => acc.reverse :: pySplitlinesAux rest []
  | '\n' :: rest, acc => acc.reverse :: pySplitlinesAux rest []
  | '\r' :: rest, acc => acc.reverse :: pySplitlinesAux rest []
  | c :: rest, acc => pySplitlinesAux rest (c :: acc)

/-- Model of Python `str.splitlines()` restricted to the separators
`\n`, `\r\n` and `\r` (the program only ever feeds it `\n`-separated
`xrandr` output).  As in Python, a trailing separator does not produce a
trailing empty line. -/
def pySplitlines (s : String) : List String :=
  (pySplitlinesAux s.data []).map List.asString

/-! ### The command runner `_run` (install.py lines 39-66)

The runner is embedded as a state-passing interpreter.  `W` is the state
of the outside world (file system, installed packages, ...) and `O` is the
type of the keyword-argument bundle `**kwargs` that `_run` forwards
unchanged to `subprocess.run` and to its recursive calls.  A call
`subprocess.run(cmd, **merged_kwargs)` is an oracle
`exec : W → O → String → String → ExecResult × W` receiving the world,
the options, the current working directory and the command; it returns
the successor world together with how the call ended. -/

/-- Outcome of one `subprocess.run` invocation:
`success` — returned normally (with the default `check=True` this means
the command exited with status 0);
`calledProcessError` — raised `subprocess.CalledProcessError` (nonzero
exit under `check=True`);
`otherError` — raised any other exception, e.g. an `OSError` because the
subprocess could not be spawned. -/
inductive ExecResult where
  | success
  | calledProcessError
  | otherError
deriving DecidableEq

/-- Process-wide state threaded through the runner: the abstract world,
the current working directory (mutated by `os.chdir`) and the
chronological log of commands handed to `subprocess.run`. -/
structure RunState (W : Type) where
  world : W
  cwd : String
  log : List String
deriving DecidableEq

/-- The kind of exception propagating out of the runner. -/
inductive Fault where
  | calledProcess
  | execError
  | chdirError
deriving DecidableEq

/-- Result of a runner call: normal return, or an exception of kind `e`
escaping while the process state is `st` (side effects performed so far
are kept, matching Python exception propagation). -/
inductive RunResult (W : Type) where
  | ok (st : RunState W)
  | fault (e : Fault) (st : RunState W)
deriving DecidableEq

/-- The fixed collaborators of the runner: the `subprocess.run` oracle,
an oracle telling whether `os.chdir` to a path succeeds in a given world,
and the home directory used by `_path`. -/
structure Env (W O : Type) where
  exec : W → O → String → String → ExecResult × W
  chdirOk : W → String → Bool
  home : String

/-- The `dependencies` argument of `_run`: `None`, a callable (modelled as
an arbitrary state transformer that may itself raise), or a list of
directives.  Any other Python value would raise `TypeError`; no caller
passes one and it is not modelled. -/
inductive Deps (W : Type) where
  | none
  | func (f : RunState W → RunResult W)
  | list (ds : List String)

/-- Python truthiness of the `dependencies` value, as tested by
`if dependencies:` (install.py line 57): `None` and the empty list are
falsy, a function object and a non-empty list are truthy. -/
def depTruthy {W : Type} : Deps W → Bool
  | .none => false
  | .func _ => true
  | .list ds => !ds.isEmpty

/-- The target handed to `os.chdir` by a `cd` directive:
`_path(command[3:])` (install.py lines 43-44). -/
def chdirTarget (home c : String) : String :=
  pyPath home (strDrop c 3)

/-- `_run(commands, **kwargs)` with `dependencies=None` — the form used
for the nested dependency list and for the single retry (install.py
lines 61 and 64).  A directive starting with `cd` mutates the working
directory instead of spawning a subprocess; any other directive is handed
to the `exec` oracle, and a raised exception aborts the remaining
directives. -/
def runND {W O : Type} (env : Env W O) (opts : O) : List String → RunState W → RunResult W
  | [], st => .ok st
  | c :: rest, st =>
    if strStartsWith c "cd" then
      if env.chdirOk st.world (chdirTarget env.home c) then
        runND env opts rest ⟨st.world, chdirTarget env.home c, st.log⟩
      else .fault .chdirError st
    else
      match env.exec st.world opts st.cwd c with
      | (.success, w) => runND env opts rest ⟨w, st.cwd, st.log ++ [c]⟩
      | (.calledProcessError, w) => .fault .calledProcess ⟨w, st.cwd, st.log ++ [c]⟩
      | (.otherError, w) => .fault .execError ⟨w, st.cwd, st.log ++ [c]⟩

/-- `_run(commands, dependencies, **kwargs)` (install.py lines 39-66).
On a `CalledProcessError` the runner consults `dependencies`: if falsy
the exception re-raises; if a callable it is invoked with no arguments;
if a list it is run through `_run` with no dependency; in the truthy
cases the failing command is then retried once as the single-element
batch `_run([command], **kwargs)` with the dependency cleared.  Any
exception raised by the dependency action or by the retry propagates.
Exceptions other than `CalledProcessError` are not caught. -/
def run {W O : Type} (env : Env W O) (opts : O) (deps : Deps W) :
    List String → RunState W → RunResult W
  | [], st => .ok st
  | c :: rest, st =>
    if strStartsWith c "cd" then
      if env.chdirOk st.world (chdirTarget env.home c) then
        run env opts deps rest ⟨st.world, chdirTarget env.home c, st.log⟩
      else .fault .chdirError st
    else
      match env.exec st.world opts st.cwd c with
      | (.success, w) => run env opts deps rest ⟨w, st.cwd, st.log ++ [c]⟩
      | (.calledProcessError, w) =>
        match deps with
        | .none => .fault .calledProcess ⟨w, st.cwd, st.log ++ [c]⟩
        | .func f =>
          match f ⟨w, st.cwd, st.log ++ [c]⟩ with
          | .fault e st2 => .fault e st2
          | .ok st2 =>
            match runND env opts [c] st2 with
            | .fault e st3 => .fault e st3
            | .ok st3 => run env opts deps rest st3
        | .list ds =>
          if ds.isEmpty then .fault .calledProcess ⟨w, st.cwd, st.log ++ [c]⟩
          else
            match runND env opts ds ⟨w, st.cwd, st.log ++ [c]⟩ with
            | .fault e st2 => .fault e st2
            | .ok st2 =>
              match runND env opts [c] st2 with
              | .fault e st3 => .fault e st3
              | .ok st3 => run env opts deps rest st3
      | (.otherError, w) => .fault .execError ⟨w, st.cwd, st.log ++ [c]⟩

/-- The dependency action itself, performed when a directive has failed
and `dependencies` is truthy: a callable is invoked with no arguments, a
directive list is run through the runner with no dependency
(install.py lines 58-61). -/
def depRun {W O : Type} (env : Env W O) (opts : O) : Deps W → RunState W → RunResult W
  | .none, st => .ok st
  | .func f, st => f st
  | .list ds, st => runND env opts ds st

/-! ### The monitor layout planner (install.py lines 100-166) -/

/-- `_Monitor` (install.py lines 100-133).  `width` and `height` come
from the digit groups of the resolution regex, `x`/`y` default to `0` and
`primary` to `False`; `below.x` is assigned an integer that is a
difference of floor divisions, hence `x`/`y` are integers. -/
structure _Monitor where
  name : String
  width : Nat
  height : Nat
  x : Int
  y : Int
  primary : Bool
deriving DecidableEq

/-- `_Monitor.__eq__`: width-only equality. -/
def _Monitor.eq (m o : _Monitor) : Bool := m.width == o.width

/-- `_Monitor.__ne__`: width-only disequality. -/
def _Monitor.ne (m o : _Monitor) : Bool := m.width != o.width

/-- `_Monitor.__gt__`: width-only strict order. -/
def _Monitor.gt (m o : _Monitor) : Bool := decide (m.width > o.width)

/-- `_Monitor.__ge__`: width-only order. -/
def _Monitor.ge (m o : _Monitor) : Bool := decide (m.width ≥ o.width)

/-- `_Monitor.__lt__`: width-only strict order. -/
def _Monitor.lt (m o : _Monitor) : Bool := decide (m.width < o.width)

/-- `_Monitor.__le__`: width-only order. -/
def _Monitor.le (m o : _Monitor) : Bool := decide (m.width ≤ o.width)

/-- `_Monitor.__str__` (install.py lines 128-130): one `xrandr` placement
clause. -/
def _Monitor.str (m : _Monitor) : String :=
  "--output " ++ m.name ++ (if m.primary then " --primary" else "")
    ++ " --mode " ++ toString m.width ++ "x" ++ toString m.height
    ++ " --pos " ++ toString m.x ++ "x" ++ toString m.y

/-- ASCII model of the regex class `[\w-]`. -/
def isWordDash (c : Char) : Bool :=
  c.isAlpha || c.isDigit || c == '_' || c == '-'

/-- Model of `re.findall(r'^([\w-]+) connected', line)` restricted to its
first match: the line must begin with a non-empty run of word characters
or hyphens followed immediately by the text `" connected"`; the run is
the captured name.  (Backtracking cannot shorten the run: the character
after a shorter prefix would be a word character, never the required
space.) -/
def connectedName (line : String) : Option String :=
  let name := line.data.takeWhile isWordDash
  if name.isEmpty then none
  else if (" connected".data).isPrefixOf (line.data.dropWhile isWordDash) then
    some name.asString
  else none

/-- Digit list to number, as `int()` applied to a regex group. -/
def charsToNat (cs : List Char) : Nat :=
  cs.foldl (fun n c => 10 * n + (c.toNat - 48)) 0

/-- Scanner behind `findRes`.  The flag records whether the previous
character was a digit, so that each maximal digit run is inspected once,
at its first character — matching the leftmost-match rule of
`re.findall`: a match of `(\d+)x(\d+)` cannot start inside a digit run,
because the run would extend to the same failing boundary. -/
def findResGo : Bool → List Char → Option (Nat × Nat)
  | _, [] => none
  | prev, c :: rest =>
    if c.isDigit && !prev then
      let d1 := (c :: rest).takeWhile Char.isDigit
      match (c :: rest).dropWhile Char.isDigit with
      | 'x' :: more =>
        let d2 := more.takeWhile Char.isDigit
        if d2.isEmpty then findResGo true rest
        else some (charsToNat d1, charsToNat d2)
      | _ => findResGo true rest
    else findResGo c.isDigit rest

/-- Model of `re.findall(r'[\s]*(\d+)x(\d+)', line)` restricted to its
first match: the first maximal digit run that is immediately followed by
the letter `x` and another digit run yields the two captured numbers.
The optional leading whitespace never changes the captured groups. -/
def findRes (line : String) : Option (Nat × Nat) :=
  findResGo false line.data

/-- The parsing loop of `monitor` (install.py lines 143-151).  For every
line matching the `connected` pattern the *following* line is inspected
for a resolution.  The source guards the access `lines[i+1]` only by the
vacuous test `i < len(lines)`, so a `connected` match on the final line
raises `IndexError`; that crash is modelled by `none`.  A following line
without parsable resolution merely skips the output. -/
def collectMons : List String → Option (List _Monitor)
  | [] => some []
  | line :: rest =>
    match connectedName line with
    | Option.none => collectMons rest
    | Option.some name =>
      match rest with
      | [] => none
      | next :: _ =>
        match findRes next with
        | Option.none => collectMons rest
        | Option.some (w, h) =>
          match collectMons rest with
          | Option.none => none
          | Option.some ms => some (⟨name, w, h, 0, 0, false⟩ :: ms)

/-- The detected monitor list of `monitor()` for a given
`xrandr -q --current` output text (`none` models the `IndexError`
escape). -/
def pyMonitors (output : String) : Option (List _Monitor) :=
  collectMons (pySplitlines output)

/-- The two-monitor arrangement (install.py lines 156-164).
`below = min(monitors)` and `above = max(monitors)` use the width-only
`__lt__`/`__gt__` comparisons, each keeping the *first* element on ties;
`below` is marked primary and repositioned, then the clauses are emitted
in original detection order. -/
def plan2 (m1 m2 : _Monitor) : List _Monitor :=
  let above := if _Monitor.gt m2 m1 then m2 else m1
  if _Monitor.lt m2 m1 then
    [m1,
     { m2 with
        primary := true
        x := Int.ofNat (above.width / 2) - Int.ofNat (m2.width / 2)
        y := Int.ofNat above.height }]
  else
    [{ m1 with
        primary := true
        x := Int.ofNat (above.width / 2) - Int.ofNat (m1.width / 2)
        y := Int.ofNat above.height },
     m2]

/-- The command built by `monitor()` from the detected monitor list
(install.py lines 153-164): the fixed auto-detect command unless exactly
two monitors were found. -/
def layoutCommand (ms : List _Monitor) : String :=
  match ms with
  | [m1, m2] => "xrandr " ++ strJoin " " ((plan2 m1 m2).map _Monitor.str)
  | _ => "xrandr --auto"

/-- End-to-end layout planning of `monitor()`: parse the adapter query
output, then build the placement command (`none` when the parse raises). -/
def monitorCommand (output : String) : Option String :=
  (pyMonitors output).map layoutCommand

/-! ### Concrete environments used to instantiate the runner theorems -/

/-- A world counting subprocess spawns; `"bad"` always exits nonzero,
`"boom"` always fails to spawn, everything else succeeds. -/
def envA : Env Nat Unit :=
  ⟨fun w _ _ c =>
      (if c = "bad" then .calledProcessError
       else if c = "boom" then .otherError
       else .success,
       w + 1),
   fun _ _ => true, "/home/u"⟩

/-- A world counting subprocess spawns; `"flaky"` exits nonzero on the
very first spawn of the process and succeeds afterwards. -/
def envB : Env Nat Unit :=
  ⟨fun w _ _ c =>
      (if c = "flaky" && w == 0 then .calledProcessError else .success, w + 1),
   fun _ _ => true, "/home/u"⟩

/-- A dependency routine whose invocation is observable: it bumps the
world counter by 100. -/
def dep100 : RunState Nat → RunResult Nat :=
  fun st => .ok ⟨st.world + 100, st.cwd, st.log⟩

/-- A dependency routine that returns without touching the state. -/
def depOk : RunState Nat → RunResult Nat :=
  fun st => .ok st

/-! ### Shared lemmas about the runner -/

/-- With a falsy `dependencies` value (`None` or the empty list) the
runner never enters the remediation branch, so it coincides with the
dependency-free runner. -/
theorem run_of_not_truthy {W O : Type} (env : Env W O) (opts : O) (deps : Deps W)
    (hd : depTruthy deps = false) :
    ∀ (cmds : List String) (st : RunState W),
      run env opts deps cmds st = runND env opts cmds st := by
  intro cmds
  induction cmds with
  | nil => intro st; rfl
  | cons c rest ih =>
    intro st
    simp only [run, runND]
    by_cases hcd : strStartsWith c "cd" = true
    · rw [if_pos hcd, if_pos hcd]
      by_cases hch : env.chdirOk st.world (chdirTarget env.home c) = true
      · rw [if_pos hch, if_pos hch]; exact ih _
      · rw [if_neg hch, if_neg hch]
    · rw [if_neg hcd, if_neg hcd]
      rcases hex : env.exec st.world opts st.cwd c with ⟨r, w⟩
      cases r with
      | success => exact ih _
      | otherError => rfl
      | calledProcessError =>
        cases deps with
        | none => rfl
        | func f => simp [depTruthy] at hd
        | list ds =>
          simp only [depTruthy, Bool.not_eq_false'] at hd
          simp only [hd, if_true]

/-- Running a concatenated batch is running the first part and, if it
returned normally, continuing with the second from the reached state. -/
theorem runND_append {W O : Type} (env : Env W O) (opts : O) (as bs : List String) :
    ∀ st : RunState W,
      runND env opts (as ++ bs) st =
        match runND env opts as st with
        | .ok st1 => runND env opts bs st1
        | .fault e st1 => .fault e st1 := by
  induction as with
  | nil => intro st; rfl
  | cons a as ih =>
    intro st
    rw [List.cons_append]
    simp only [runND]
    by_cases hcd : strStartsWith a "cd" = true
    · rw [if_pos hcd, if_pos hcd]
      by_cases hch : env.chdirOk st.world (chdirTarget env.home a) = true
      · rw [if_pos hch, if_pos hch]; exact ih _
      · rw [if_neg hch, if_neg hch]
    · rw [if_neg hcd, if_neg hcd]
      rcases hex : env.exec st.world opts st.cwd a with ⟨r, w⟩
      cases r with
      | success => exact ih _
      | otherError => rfl
      | calledProcessError => rfl

/-! ### The claims -/

/-- C1 (amended): for a batch run with a truthy dependency action — a
routine, or a non-empty nested directive list — when a directive raises
`CalledProcessError`, the dependency action is performed and the failing
directive is retried exactly once, as the single-element batch with the
same options and the dependency cleared (`runND`); if the retry returns
normally the batch continues with the remaining directives from the
reached state, and if the retry raises, that fault propagates unchanged —
no second retry and no second invocation of the dependency action. -/
theorem c1_dependency_retry {W O : Type} (env : Env W O) (opts : O) (deps : Deps W)
    (c : String) (rest : List String) (st : RunState W) (w : W)
    (hcd : strStartsWith c "cd" = false)
    (hex : env.exec st.world opts st.cwd c = (.calledProcessError, w))
    (hdep : depTruthy deps = true) :
    (∀ st2 st3 : RunState W,
        depRun env opts deps ⟨w, st.cwd, st.log ++ [c]⟩ = .ok st2 →
        runND env opts [c] st2 = .ok st3 →
        run env opts deps (c :: rest) st = run env opts deps rest st3)
    ∧ (∀ (st2 : RunState W) (e : Fault) (st3 : RunState W),
        depRun env opts deps ⟨w, st.cwd, st.log ++ [c]⟩ = .ok st2 →
        runND env opts [c] st2 = .fault e st3 →
        run env opts deps (c :: rest) st = .fault e st3) := by
  cases deps with
  | none => simp [depTruthy] at hdep
  | func f =>
    refine ⟨fun st2 st3 h1 h2 => ?_, fun st2 e st3 h1 h2 => ?_⟩ <;>
      · simp only [depRun] at h1
        simp [run, hcd, hex, h1, h2]
  | list ds =>
    simp only [depTruthy, Bool.not_eq_true'] at hdep
    refine ⟨fun st2 st3 h1 h2 => ?_, fun st2 e st3 h1 h2 => ?_⟩ <;>
      · simp only [depRun] at h1
        simp [run, hcd, hex, hdep, h1, h2]

/-- C1 witness: a concrete failing directive with a routine dependency,
discharging every hypothesis of `c1_dependency_retry`. -/
theorem c1_dependency_retry_witness :
    (strStartsWith "bad" "cd" = false
      ∧ envA.exec 0 () "/" "bad" = (.calledProcessError, 1)
      ∧ depTruthy (Deps.func depOk) = true)
    ∧ ((∀ st2 st3 : RunState Nat,
          depRun envA () (Deps.func depOk) ⟨1, "/", ["bad"]⟩ = .ok st2 →
          runND envA () ["bad"] st2 = .ok st3 →
          run envA () (Deps.func depOk) ["bad", "ls"] ⟨0, "/", []⟩
            = run envA () (Deps.func depOk) ["ls"] st3)
      ∧ (∀ (st2 : RunState Nat) (e : Fault) (st3 : RunState Nat),
          depRun envA () (Deps.func depOk) ⟨1, "/", ["bad"]⟩ = .ok st2 →
          runND envA () ["bad"] st2 = .fault e st3 →
          run envA () (Deps.func depOk) ["bad", "ls"] ⟨0, "/", []⟩ = .fault e st3)) :=
  ⟨⟨rfl, rfl, rfl⟩,
    c1_dependency_retry envA () (Deps.func depOk) "bad" ["ls"] ⟨0, "/", []⟩ 1 rfl rfl rfl⟩

/-- C1 counterexample: with the *empty* directive list as dependency —
a non-null dependency action that is a nested directive list — a failing
directive is not retried at all: the runner propagates the fault at once
(the log shows a single spawn), even though a retry would have succeeded,
as the second conjunct shows.  This refutes the claim as stated for the
empty-list dependency. -/
theorem c1_counterexample :
    run envB () (Deps.list []) ["flaky"] ⟨0, "/", []⟩
        = .fault .calledProcess ⟨1, "/", ["flaky"]⟩
    ∧ runND envB () ["flaky"] ⟨1, "/", ["flaky"]⟩ = .ok ⟨2, "/", ["flaky", "flaky"]⟩ :=
  ⟨rfl, rfl⟩

/-- C2: with a null dependency action, a directive raising
`CalledProcessError` makes the fault propagate immediately: the result is
the fault state whose log extends the executed prefix by the failing
directive alone, independently of the directives after it. -/
theorem c2_null_dep_aborts {W O : Type} (env : Env W O) (opts : O)
    (pre : List String) (c : String) (rest : List String)
    (st st1 : RunState W) (w : W)
    (hpre : run env opts Deps.none pre st = .ok st1)
    (hcd : strStartsWith c "cd" = false)
    (hex : env.exec st1.world opts st1.cwd c = (.calledProcessError, w)) :
    run env opts Deps.none (pre ++ c :: rest) st
      = .fault .calledProcess ⟨w, st1.cwd, st1.log ++ [c]⟩ := by
  rw [run_of_not_truthy env opts Deps.none rfl] at hpre
  rw [run_of_not_truthy env opts Deps.none rfl,
    runND_append env opts pre (c :: rest) st, hpre]
  simp [runND, hcd, hex]

/-- C2 witness: one successful directive, then a failing one followed by
a further directive that is never executed. -/
theorem c2_null_dep_aborts_witness :
    (run envA () Deps.none ["ok1"] ⟨0, "/", []⟩ = .ok ⟨1, "/", ["ok1"]⟩
      ∧ strStartsWith "bad" "cd" = false
      ∧ envA.exec 1 () "/" "bad" = (.calledProcessError, 2))
    ∧ run envA () Deps.none (["ok1"] ++ ["bad", "after"]) ⟨0, "/", []⟩
        = .fault .calledProcess ⟨2, "/", ["ok1", "bad"]⟩ :=
  ⟨⟨rfl, rfl, rfl⟩,
    c2_null_dep_aborts envA () ["ok1"] "bad" ["after"] ⟨0, "/", []⟩ ⟨1, "/", ["ok1"]⟩ 2
      rfl rfl rfl⟩

/-- C3: when the adapter query output parses to exactly the two monitors
`A` (1920x1080) and `B` (1366x768) in that order, the planner marks `B`
primary at position `(277, 1080)`, leaves `A` non-primary at `(0, 0)`
with mode 1920x1080, and the emitted command carries one placement clause
per monitor in original detection order, `A` before `B`. -/
theorem c3_two_monitor_layout (out : String)
    (hp : pyMonitors out
        = some [⟨"A", 1920, 1080, 0, 0, false⟩, ⟨"B", 1366, 768, 0, 0, false⟩]) :
    plan2 ⟨"A", 1920, 1080, 0, 0, false⟩ ⟨"B", 1366, 768, 0, 0, false⟩
        = [⟨"A", 1920, 1080, 0, 0, false⟩, ⟨"B", 1366, 768, 277, 1080, true⟩]
    ∧ monitorCommand out
        = some "xrandr --output A --mode 1920x1080 --pos 0x0 --output B --primary --mode 1366x768 --pos 277x1080" := by
  refine ⟨rfl, ?_⟩
  unfold monitorCommand
  rw [hp]
  rfl

/-- C3 witness: a concrete `xrandr -q --current` transcript whose parse
is exactly the required pair of monitors. -/
theorem c3_two_monitor_layout_witness :
    pyMonitors "A connected primary 1920x1080+0+0\n   1920x1080     60.00*+\nB connected\n   1366x768     59.80 +\n"
        = some [⟨"A", 1920, 1080, 0, 0, false⟩, ⟨"B", 1366, 768, 0, 0, false⟩]
    ∧ (plan2 ⟨"A", 1920, 1080, 0, 0, false⟩ ⟨"B", 1366, 768, 0, 0, false⟩
          = [⟨"A", 1920, 1080, 0, 0, false⟩, ⟨"B", 1366, 768, 277, 1080, true⟩]
      ∧ monitorCommand "A connected primary 1920x1080+0+0\n   1920x1080     60.00*+\nB connected\n   1366x768     59.80 +\n"
          = some "xrandr --output A --mode 1920x1080 --pos 0x0 --output B --primary --mode 1366x768 --pos 277x1080") :=
  ⟨rfl, c3_two_monitor_layout _ rfl⟩

/-- C4: whenever the parser derives any number of monitors other than
two, the planner emits the fixed auto-detect command verbatim, whatever
the monitors are. -/
theorem c4_auto_fallback (out : String) (ms : List _Monitor)
    (hp : pyMonitors out = some ms) (hn : ms.length ≠ 2) :
    monitorCommand out = some "xrandr --auto" := by
  unfold monitorCommand
  rw [hp]
  rcases ms with _ | ⟨m1, _ | ⟨m2, _ | ⟨m3, t⟩⟩⟩
  · rfl
  · rfl
  · exact absurd rfl hn
  · rfl

/-- C4 witness: a single-monitor transcript falls back to
`xrandr --auto`. -/
theorem c4_auto_fallback_witness :
    (pyMonitors "eDP1 connected\n   1920x1080 60.00\n"
        = some [⟨"eDP1", 1920, 1080, 0, 0, false⟩]
      ∧ ([(⟨"eDP1", 1920, 1080, 0, 0, false⟩ : _Monitor)].length ≠ 2))
    ∧ monitorCommand "eDP1 connected\n   1920x1080 60.00\n" = some "xrandr --auto" :=
  ⟨⟨rfl, by decide⟩, c4_auto_fallback _ _ rfl (by decide)⟩

/-- C5: a `connected` line whose following line has no parsable
resolution is silently dropped and parsing continues (first conjunct:
`eDP-1` is excluded, `HDMI-1` is still found).  But when the `connected`
line has *no* following line the code does not drop the output — the
vacuous bounds check lets `lines[i+1]` raise `IndexError`, modelled by
`none` (second conjunct), contradicting the claimed silent exclusion for
that case. -/
theorem c5_parse_miss_and_crash :
    pyMonitors "eDP-1 connected\nno resolution here\nHDMI-1 connected\n   1920x1080 60.00\n"
        = some [⟨"HDMI-1", 1920, 1080, 0, 0, false⟩]
    ∧ pyMonitors "HDMI-1 connected" = none :=
  ⟨rfl, rfl⟩

/-- C6: every comparison operator of `_Monitor` holds exactly when the
same comparison holds between the widths; in particular monitors of equal
width are "equal" whatever their names, heights, positions or primary
flags. -/
theorem c6_width_only_comparison (m1 m2 : _Monitor) :
    (_Monitor.eq m1 m2 = true ↔ m1.width = m2.width)
    ∧ (_Monitor.ne m1 m2 = true ↔ m1.width ≠ m2.width)
    ∧ (_Monitor.lt m1 m2 = true ↔ m1.width < m2.width)
    ∧ (_Monitor.le m1 m2 = true ↔ m1.width ≤ m2.width)
    ∧ (_Monitor.gt m1 m2 = true ↔ m1.width > m2.width)
    ∧ (_Monitor.ge m1 m2 = true ↔ m1.width ≥ m2.width) := by
  refine ⟨?_, ?_, ?_, ?_, ?_, ?_⟩ <;>
    simp [_Monitor.eq, _Monitor.ne, _Monitor.lt, _Monitor.le, _Monitor.gt, _Monitor.ge]

/-- C7 counterexample: two detected monitors of equal width 1000.  The
*first* monitor is marked primary (`map primary = [true, false]`), not
the second as the claim states: `min` and `max` keep the first element on
ties because they compare with the strict `__lt__`/`__gt__`. -/
theorem c7_tie_counterexample :
    (plan2 ⟨"A", 1000, 500, 0, 0, false⟩ ⟨"B", 1000, 700, 0, 0, false⟩).map _Monitor.primary
      = [true, false] := rfl

/-- C7 (amended): on a width tie the *first*-compared monitor is selected
by both `min` and `max`, so it becomes `below` and `above` at once: it is
marked primary, its x offset is `0` and its y offset is its own height,
while the second monitor is left untouched. -/
theorem c7_tie_first_wins (m1 m2 : _Monitor) (h : m1.width = m2.width) :
    plan2 m1 m2 = [{ m1 with primary := true, x := 0, y := Int.ofNat m1.height }, m2] := by
  simp [plan2, _Monitor.lt, _Monitor.gt, h]

/-- C7 witness: the amended tie rule at two concrete equal-width
monitors. -/
theorem c7_tie_first_wins_witness :
    ((⟨"A", 1000, 500, 0, 0, false⟩ : _Monitor).width
        = (⟨"B", 1000, 700, 0, 0, false⟩ : _Monitor).width)
    ∧ plan2 ⟨"A", 1000, 500, 0, 0, false⟩ ⟨"B", 1000, 700, 0, 0, false⟩
        = [⟨"A", 1000, 500, 0, 500, true⟩, ⟨"B", 1000, 700, 0, 0, false⟩] :=
  ⟨rfl, c7_tie_first_wins _ _ rfl⟩

/-- C8 (amended): a spawn failure — any exception from `subprocess.run`
other than `CalledProcessError` — is *not* recoverable: whatever the
dependency action is, the fault propagates immediately, the dependency
action is not invoked and no retry happens. -/
theorem c8_spawn_failure_propagates {W O : Type} (env : Env W O) (opts : O)
    (deps : Deps W) (c : String) (rest : List String) (st : RunState W) (w : W)
    (hcd : strStartsWith c "cd" = false)
    (hex : env.exec st.world opts st.cwd c = (.otherError, w)) :
    run env opts deps (c :: rest) st = .fault .execError ⟨w, st.cwd, st.log ++ [c]⟩ := by
  simp [run, hcd, hex]

/-- C8 witness: a spawn-failing directive under a routine dependency. -/
theorem c8_spawn_failure_propagates_witness :
    (strStartsWith "boom" "cd" = false
      ∧ envA.exec 0 () "/" "boom" = (.otherError, 1))
    ∧ run envA () (Deps.func depOk) ["boom", "after"] ⟨0, "/", []⟩
        = .fault .execError ⟨1, "/", ["boom"]⟩ :=
  ⟨⟨rfl, rfl⟩,
    c8_spawn_failure_propagates envA () (Deps.func depOk) "boom" ["after"] ⟨0, "/", []⟩ 1
      rfl rfl⟩

/-- C8 counterexample: a directive whose spawn fails, in a batch whose
dependency routine would bump the world counter by 100 and whose retry
would be logged.  The result keeps world `1` and a single log entry: the
dependency action never ran and the directive was never retried,
refuting the claimed recoverability of spawn failures. -/
theorem c8_counterexample :
    run envA () (Deps.func dep100) ["boom"] ⟨0, "/", []⟩
      = .fault .execError ⟨1, "/", ["boom"]⟩ := rfl

/-- C9 (amended): a directive starting with the prefix `cd` changes only
the working-directory component of the process state — to
`_path(command[3:])`, the directive after its first three characters with
the `~/` expansion applied — spawns no subprocess (the log and the world
are untouched), and the new directory is what the remaining directives of
the batch, and any later batch continued from the returned state, run
in. -/
theorem c9_cd_mutates_cwd {W O : Type} (env : Env W O) (opts : O) (deps : Deps W)
    (c : String) (rest : List String) (st : RunState W)
    (hcd : strStartsWith c "cd" = true)
    (hch : env.chdirOk st.world (chdirTarget env.home c) = true) :
    run env opts deps (c :: rest) st
        = run env opts deps rest ⟨st.world, chdirTarget env.home c, st.log⟩
    ∧ run env opts deps [c] st = .ok ⟨st.world, chdirTarget env.home c, st.log⟩ := by
  constructor
  · simp [run, hcd, hch]
  · simp [run, hcd, hch]

/-- C9 witness: `cd /tmp` rewrites the working directory seen by the
rest of the batch and is the whole effect of a one-directive batch. -/
theorem c9_cd_mutates_cwd_witness :
    (strStartsWith "cd /tmp" "cd" = true
      ∧ envA.chdirOk 0 (chdirTarget envA.home "cd /tmp") = true)
    ∧ (run envA () Deps.none ["cd /tmp", "ls"] ⟨0, "/", []⟩
          = run envA () Deps.none ["ls"] ⟨0, "/tmp", []⟩
      ∧ run envA () Deps.none ["cd /tmp"] ⟨0, "/", []⟩ = .ok ⟨0, "/tmp", []⟩) :=
  ⟨⟨rfl, rfl⟩, c9_cd_mutates_cwd envA () Deps.none "cd /tmp" ["ls"] ⟨0, "/", []⟩ rfl rfl⟩

/-- C9 counterexample: the directive `cd/abc` starts with the
two-character prefix `cd`; its remainder is `/abc`, yet the runner
changes the working directory to `abc` — the slice `command[3:]` drops
three characters, not the two of the prefix — refuting the claim that
the remainder of the string is the target path. -/
theorem c9_counterexample :
    run envA () Deps.none ["cd/abc"] ⟨0, "/", []⟩ = .ok ⟨0, "abc", []⟩
    ∧ ("abc" : String) ≠ "/abc" :=
  ⟨rfl, by decide⟩

/-- C10: the empty directive list as dependency action behaves exactly
like the null dependency on every batch; in particular a failing
directive propagates its fault immediately, with no nested list executed
and no retry. -/
theorem c10_empty_list_dep {W O : Type} (env : Env W O) (opts : O) :
    (∀ (cmds : List String) (st : RunState W),
        run env opts (Deps.list []) cmds st = run env opts Deps.none cmds st)
    ∧ (∀ (c : String) (rest : List String) (st : RunState W) (w : W),
        strStartsWith c "cd" = false →
        env.exec st.world opts st.cwd c = (.calledProcessError, w) →
        run env opts (Deps.list []) (c :: rest) st
          = .fault .calledProcess ⟨w, st.cwd, st.log ++ [c]⟩) := by
  constructor
  · intro cmds st
    rw [run_of_not_truthy env opts (Deps.list []) rfl,
      run_of_not_truthy env opts Deps.none rfl]
  · intro c rest st w hcd hex
    rw [run_of_not_truthy env opts (Deps.list []) rfl]
    simp [runND, hcd, hex]

/-- C10 witness: the identity and the immediate fault at concrete
batches. -/
theorem c10_empty_list_dep_witness :
    (run envA () (Deps.list []) ["ok1"] ⟨0, "/", []⟩
        = run envA () Deps.none ["ok1"] ⟨0, "/", []⟩)
    ∧ (strStartsWith "bad" "cd" = false
      ∧ envA.exec 0 () "/" "bad" = (.calledProcessError, 1)
      ∧ run envA () (Deps.list []) ["bad", "after"] ⟨0, "/", []⟩
          = .fault .calledProcess ⟨1, "/", ["bad"]⟩) :=
  ⟨(c10_empty_list_dep envA ()).1 ["ok1"] ⟨0, "/", []⟩,
    ⟨rfl, rfl, (c10_empty_list_dep envA ()).2 "bad" ["after"] ⟨0, "/", []⟩ 1 rfl rfl⟩⟩

end LinuxInstall
